import Mathlib

/-!
Verification development for the chat bot in bot.py: session state machine,
credit ledger and payment reconciliation.

Modelling conventions of the shallow embedding:

* A session (one entry of the process-wide dict user_data, keyed by chat id)
  is the structure UserData below.  The Python code stores sessions as string
  keyed dictionaries whose keys may be absent; an absent boolean
  waiting flag reads as false via dict.get, an absent value key reads as
  None, so an absent session key is embedded as the default field value
  (false, or none).  Image bytes, landmark lists, measurement maps and
  visualisation bytes are opaque to the session logic and are embedded as
  Nat identifiers.
* Outgoing chat messages are embedded as constructors of Msg carrying
  exactly the numbers or strings interpolated into the corresponding
  Python message text.
* External collaborators (payment providers, the vision analyzer, the
  generative image service) are embedded as explicit environment records
  (PayEnv, PhotoEnv) or extra arguments supplying their return values,
  since only their returned values flow into the logic under verification.
* database.py is imported by bot.py but is not part of the sources under
  verification; the operations taken from it (use_credit,
  complete_transaction, get_user_credits/update_user_credits) are modelled
  from the spec where marked.
-/

/-- One chat session: the entry of the in-memory user_data dict of
FaceShapeBot for a single chat id, with one field per dictionary key used
by the routing and purchase logic of bot.py.  Absent keys are embedded as
the default value. -/
structure UserData where
  current_feature : Option String := none
  waiting_for_text_prompt : Bool := false
  waiting_for_replace_prompt : Bool := false
  waiting_for_background_prompt : Bool := false
  waiting_for_style_choice : Bool := false
  waiting_for_style_image : Bool := false
  waiting_for_payment_method : Bool := false
  waiting_for_package_selection : Bool := false
  waiting_for_hairstyle_selection : Bool := false
  awaiting_analysis_method : Bool := false
  customization_state : Option String := none
  image_data : Option Nat := none
  face_shape : Option String := none
  face_measurements : Option Nat := none
  landmarks : Option Nat := none
  processed_image : Option Nat := none
  selected_payment_method : Option String := none
  selected_package : Option Nat := none
  background_prompt : Option String := none
  replace_prompt : Option String := none
  deriving Repr, DecidableEq

/-- Outgoing chat messages, one constructor per distinct reply of the
modelled handlers, carrying the values interpolated into the text. -/
inductive Msg where
  | videoTooLong
  | noPhotoYet
  | notEnoughCredits (credits cost : Nat)
  | premiumFeatures
  | tryOnCost (cost credits : Nat)
  | tryHairstyleIntro
  | processing
  | noFace
  | analysisResult (shape : String)
  | symmetryResult
  | paymentError
  | paymentExpired
  | paymentCanceled
  | paymentNotCompleted (status expected : String)
  | paymentAlreadyProcessed (credits total : Nat)
  | paymentSuccess (credits total : Nat)
  | contactSupport
  | stripeAlreadyProcessed (total : Nat)
  | stripeProcessed (credits total : Nat)
  | paymentCompletedDeepLink (credits total : Nat)
  | paymentPendingDeepLink
  | hairstyleGenerating
  | genError
  | hairstyleApplied (remaining : Nat)
  deriving Repr, DecidableEq

/-- Python str.startswith, on the character list of the string. -/
def pyStartsWith (s p : String) : Bool :=
  s.data.take p.data.length == p.data

/-- Python str.isdigit: nonempty and every character a digit. -/
def pyIsDigit (s : String) : Bool :=
  !s.data.isEmpty && s.data.all Char.isDigit

/-- FaceShapeBot._reset_all_waiting_states (bot.py lines 4266 to 4301):
sets each of the eight flags of its waiting_flags list to false and sets
current_feature to None.  It touches no other session field; in
particular it does not touch awaiting_analysis_method or
customization_state. -/
def _reset_all_waiting_states (ud : UserData) : UserData :=
  { ud with
    waiting_for_text_prompt := false
    waiting_for_replace_prompt := false
    waiting_for_background_prompt := false
    waiting_for_style_choice := false
    waiting_for_style_image := false
    waiting_for_payment_method := false
    waiting_for_package_selection := false
    waiting_for_hairstyle_selection := false
    current_feature := none }

/-- Session effect of FaceShapeBot.faceshape_command (bot.py lines 1373 to
1421): sets current_feature to "2" and awaiting_analysis_method to True.
It does not call _reset_all_waiting_states and clears nothing. -/
def faceshape_command (ud : UserData) : UserData :=
  { ud with current_feature := some "2", awaiting_analysis_method := true }

/-- Session effect of FaceShapeBot.start and FaceShapeBot.menu_command on
the session (bot.py lines 407 and 558): both call
_reset_all_waiting_states on the chat. -/
def start_reset (ud : UserData) : UserData :=
  _reset_all_waiting_states ud

/-- FaceShapeBot.try_hairstyle_command (bot.py lines 2404 to 2449), as a
function of the user credit balance and the session.  Returns the balance
after the call, the session after the call, and the replies sent.  The
cost is the literal 2 of line 2416. -/
def try_hairstyle_command (balance : Nat) (ud : UserData) :
    Nat × UserData × List Msg :=
  if ud.face_shape = none then
    (balance, ud, [Msg.noPhotoYet])
  else if balance < 2 then
    (balance, ud, [Msg.notEnoughCredits balance 2, Msg.premiumFeatures])
  else
    (balance,
     { ud with
        waiting_for_hairstyle_selection := true
        customization_state := some "selecting_gender" },
     [Msg.tryOnCost 2 balance, Msg.tryHairstyleIntro])

/-- The video message handler handle_video (bot.py lines 128 to 144):
if the video duration exceeds 8 seconds it sends a too-long warning and
returns; otherwise it calls process_video.  The Bool result records
whether process_video was invoked. -/
def handle_video (duration : Nat) (ud : UserData) :
    UserData × List Msg × Bool :=
  if 8 < duration then
    (ud, [Msg.videoTooLong], false)
  else
    (ud, [], true)

/-- Claim C4 counterexample state: a session waiting for the analysis
method choice, inside hairstyle customization, and with a feature text
prompt pending. -/
def udC4 : UserData :=
  { awaiting_analysis_method := true
    customization_state := some "selecting_gender"
    waiting_for_text_prompt := true }

/-- Claim C4 is false as stated: the reset run by every feature-entry
command leaves the analysis-method-choice wait reason set and leaves the
hairstyle customization sub-state active, and the /faceshape command does
not clear the text prompt wait flag at all. -/
theorem reset_misses_analysis_method_wait :
    (_reset_all_waiting_states udC4).awaiting_analysis_method = true
    ∧ (_reset_all_waiting_states udC4).customization_state
        = some "selecting_gender"
    ∧ (faceshape_command udC4).waiting_for_text_prompt = true
    ∧ (faceshape_command udC4).awaiting_analysis_method = true := by
  decide

/-- Claim C4, amended: the reset invoked by /start and /menu clears
exactly the eight listed waiting flags and the active feature marker; it
preserves the analysis-method-choice wait reason and the hairstyle
customization sub-state, and /faceshape performs no reset: it only sets
the active feature to "2" and the analysis-method wait reason. -/
theorem feature_entry_reset_behavior (ud : UserData) :
    (start_reset ud).waiting_for_text_prompt = false
    ∧ (start_reset ud).waiting_for_replace_prompt = false
    ∧ (start_reset ud).waiting_for_background_prompt = false
    ∧ (start_reset ud).waiting_for_style_choice = false
    ∧ (start_reset ud).waiting_for_style_image = false
    ∧ (start_reset ud).waiting_for_payment_method = false
    ∧ (start_reset ud).waiting_for_package_selection = false
    ∧ (start_reset ud).waiting_for_hairstyle_selection = false
    ∧ (start_reset ud).current_feature = none
    ∧ (start_reset ud).awaiting_analysis_method = ud.awaiting_analysis_method
    ∧ (start_reset ud).customization_state = ud.customization_state
    ∧ faceshape_command ud
        = { ud with
              current_feature := some "2"
              awaiting_analysis_method := true } := by
  refine ⟨rfl, rfl, rfl, rfl, rfl, rfl, rfl, rfl, rfl, rfl, rfl, rfl⟩

/-- Claim C6: with a stored face shape and a balance strictly below the
cost 2, entering the hairstyle try-on flow replies with the
insufficient-credit message carrying the current balance and the cost,
sends the purchase entry point, and stops: the balance and the whole
session are unchanged, so no wait state is set and nothing is charged. -/
theorem insufficient_credit_try_on (balance : Nat) (ud : UserData)
    (fs : String) (hfs : ud.face_shape = some fs) (hlow : balance < 2) :
    try_hairstyle_command balance ud
      = (balance, ud, [Msg.notEnoughCredits balance 2, Msg.premiumFeatures]) := by
  unfold try_hairstyle_command
  rw [hfs]
  simp [hlow]

/-- Claim C6 witness: balance 1, cost 2, reply carries credits 1 and cost
2 and the balance stays 1. -/
theorem insufficient_credit_try_on_witness :
    try_hairstyle_command 1 { face_shape := some "oval" }
      = (1, { face_shape := some "oval" },
         [Msg.notEnoughCredits 1 2, Msg.premiumFeatures]) :=
  insufficient_credit_try_on 1 { face_shape := some "oval" } "oval" rfl
    (by decide)

/-- Claim C9: the reset clears only wait-state flags and the active
feature marker; every long-lived result field (face shape, landmarks,
stored image, measurements, visualisation) and every other stored
selection survives, and a later hairstyle try-on on the reset session
still finds the face shape: with enough credit it enters the flow. -/
theorem reset_preserves_results (ud : UserData) (bal : Nat) :
    (_reset_all_waiting_states ud).face_shape = ud.face_shape
    ∧ (_reset_all_waiting_states ud).landmarks = ud.landmarks
    ∧ (_reset_all_waiting_states ud).image_data = ud.image_data
    ∧ (_reset_all_waiting_states ud).face_measurements = ud.face_measurements
    ∧ (_reset_all_waiting_states ud).processed_image = ud.processed_image
    ∧ (_reset_all_waiting_states ud).selected_payment_method
        = ud.selected_payment_method
    ∧ (_reset_all_waiting_states ud).selected_package = ud.selected_package
    ∧ (_reset_all_waiting_states ud).background_prompt = ud.background_prompt
    ∧ (_reset_all_waiting_states ud).replace_prompt = ud.replace_prompt
    ∧ (ud.face_shape ≠ none → 2 ≤ bal →
        (try_hairstyle_command bal
            (_reset_all_waiting_states ud)).2.1.waiting_for_hairstyle_selection
          = true) := by
  refine ⟨rfl, rfl, rfl, rfl, rfl, rfl, rfl, rfl, rfl, ?_⟩
  intro hfs hbal
  unfold try_hairstyle_command
  have h1 : (_reset_all_waiting_states ud).face_shape = ud.face_shape := rfl
  rw [h1]
  simp [hfs, Nat.not_lt.mpr hbal]

/-- Claim C9 witness: a session with stored face shape and an active
text prompt wait; after the reset the try-on flow still starts. -/
theorem reset_preserves_results_witness :
    (try_hairstyle_command 5
        (_reset_all_waiting_states
          { face_shape := some "oval", waiting_for_text_prompt := true
            landmarks := some 4 })).2.1.waiting_for_hairstyle_selection
      = true := by
  have h := reset_preserves_results
    { face_shape := some "oval", waiting_for_text_prompt := true
      landmarks := some 4 } 5
  exact h.2.2.2.2.2.2.2.2.2 (by decide) (by decide)

/-- Claim C10: a video longer than 8 seconds only draws the too-long
warning, the session is untouched and process_video is not invoked; a
video of at most 8 seconds is passed to process_video. -/
theorem video_duration_gate (d : Nat) (ud : UserData) :
    (8 < d → handle_video d ud = (ud, [Msg.videoTooLong], false))
    ∧ (d ≤ 8 → handle_video d ud = (ud, [], true)) := by
  constructor
  · intro h
    unfold handle_video
    simp [h]
  · intro h
    unfold handle_video
    simp [Nat.not_lt.mpr h]

/-- Claim C10 witness at durations 9 and 8. -/
theorem video_duration_gate_witness :
    handle_video 9 {} = ({}, [Msg.videoTooLong], false)
    ∧ handle_video 8 {} = ({}, [], true) :=
  ⟨(video_duration_gate 9 {}).1 (by decide),
   (video_duration_gate 8 {}).2 (by decide)⟩

/-- The routing decision of the registered text handler. -/
inductive TextRoute where
  | commandIgnored
  | paymentMethodSelection
  | feature5Activation
  | feature6Activation
  | textToImageGeneration
  | backgroundChange
  | elementReplace
  | packageSelection
  | hairstyleSelection
  | fallbackHint
  deriving Repr, DecidableEq

/-- The registered text message handler handle_text (bot.py lines 146 to
256), as session transformer plus routing decision, mirroring its chain
of checks in source order: slash commands are ignored by this handler;
waiting_for_payment_method delegates to payment method selection; a bare
digit "5", "6" or "7" activates features 5, 6 or text-to-image; text
while feature 5 or 6 is active with a stored photo becomes the background
or replace prompt; then waiting_for_package_selection,
waiting_for_payment_method (again), waiting_for_hairstyle_selection,
waiting_for_text_prompt and waiting_for_background_prompt are checked in
that order; otherwise a hint is sent. -/
def handle_text (ud : UserData) (text : String) : UserData × TextRoute :=
  if pyStartsWith text "/" = true then
    (ud, TextRoute.commandIgnored)
  else if ud.waiting_for_payment_method = true then
    (ud, TextRoute.paymentMethodSelection)
  else if pyIsDigit text = true ∧ text = "5" then
    ({ ud with current_feature := some "5" }, TextRoute.feature5Activation)
  else if pyIsDigit text = true ∧ text = "6" then
    ({ ud with current_feature := some "6" }, TextRoute.feature6Activation)
  else if pyIsDigit text = true ∧ text = "7" then
    (ud, TextRoute.textToImageGeneration)
  else if ud.current_feature = some "5" ∧ ud.image_data.isSome = true then
    ({ ud with
        background_prompt := some text
        waiting_for_background_prompt := true },
     TextRoute.backgroundChange)
  else if ud.current_feature = some "6" ∧ ud.image_data.isSome = true then
    ({ ud with replace_prompt := some text }, TextRoute.elementReplace)
  else if ud.waiting_for_package_selection = true then
    (ud, TextRoute.packageSelection)
  else if ud.waiting_for_payment_method = true then
    (ud, TextRoute.paymentMethodSelection)
  else if ud.waiting_for_hairstyle_selection = true then
    (ud, TextRoute.hairstyleSelection)
  else if ud.waiting_for_text_prompt = true then
    (ud, TextRoute.textToImageGeneration)
  else if ud.waiting_for_background_prompt = true then
    (ud, TextRoute.backgroundChange)
  else
    (ud, TextRoute.fallbackHint)

/-- Claim C3 is false as stated: with the package-selection wait reason
set, the bare digit "5" is not routed to the credit purchase flow; the
digit shortcut fires first and activates feature 5. -/
theorem digit_overrides_package_selection :
    handle_text { waiting_for_package_selection := true } "5"
      = ({ waiting_for_package_selection := true
           current_feature := some "5" },
         TextRoute.feature5Activation)
    ∧ TextRoute.feature5Activation ≠ TextRoute.packageSelection := by
  decide

/-- Claim C3, amended: the payment-method wait reason does take priority
over every later rule, but the package-selection wait reason is checked
only after the bare digit shortcut for "5", "6" and "7": a text that is
none of those three digits (and is not a slash command, and is not
captured by an active feature 5 or 6 with a stored photo) is routed to
the purchase flow package selection. -/
theorem purchase_wait_routing (ud : UserData) (text : String)
    (hcmd : pyStartsWith text "/" = false) :
    (ud.waiting_for_payment_method = true →
      handle_text ud text = (ud, TextRoute.paymentMethodSelection))
    ∧ (ud.waiting_for_payment_method = false →
       ud.waiting_for_package_selection = true →
       text ≠ "5" → text ≠ "6" → text ≠ "7" →
       ¬ (ud.current_feature = some "5" ∧ ud.image_data.isSome = true) →
       ¬ (ud.current_feature = some "6" ∧ ud.image_data.isSome = true) →
       handle_text ud text = (ud, TextRoute.packageSelection)) := by
  constructor
  · intro hpm
    unfold handle_text
    simp [hcmd, hpm]
  · intro hpm hpkg h5 h6 h7 hf5 hf6
    unfold handle_text
    simp [hcmd, hpm, hpkg, h5, h6, h7, hf5, hf6]

/-- Claim C3 witness: awaiting package selection, text "1" (not a feature
shortcut digit) is routed to package selection; and awaiting the payment
method, text "5" is still routed to the payment flow. -/
theorem purchase_wait_routing_witness :
    handle_text { waiting_for_package_selection := true } "1"
      = ({ waiting_for_package_selection := true },
         TextRoute.packageSelection)
    ∧ handle_text { waiting_for_payment_method := true } "5"
      = ({ waiting_for_payment_method := true },
         TextRoute.paymentMethodSelection) :=
  ⟨(purchase_wait_routing { waiting_for_package_selection := true } "1"
      (by decide)).2 rfl rfl (by decide) (by decide) (by decide)
      (by decide) (by decide),
   (purchase_wait_routing { waiting_for_payment_method := true } "5"
      (by decide)).1 rfl⟩

/-- The branch of process_photo that handles an incoming photo. -/
inductive PhotoRoute where
  | symmetryAnalysis
  | backgroundRemoval
  | elementReplace
  | faceShapeAnalysis
  | attractivenessAnalysis
  | defaultFaceAnalysis
  deriving Repr, DecidableEq

/-- Return values of the vision collaborator consumed by process_photo:
the downloaded photo bytes, the result of analyze_face_shape (shape,
visualisation, measurements; shape None when no face is found) and of the
landmark extraction. -/
structure PhotoEnv where
  newImage : Nat
  shape : Option String
  visImage : Nat
  measurements : Nat
  landmarksFound : Bool
  landmarksVal : Nat

/-- FaceShapeBot.process_photo (bot.py lines 1648 to 2103): routing and
session effect of an incoming photo.  The input is none when the chat has
no user_data entry.  The branches, in source order, fire on
current_feature "3" (symmetry: store photo, analyze, on success reset all
waiting states), "5" (delegate to background removal, which stores the
photo), "6" (delegate to element replacement, which stores the photo),
"2" (store photo, analyze, on success store face shape, measurements and
visualisation and clear the active feature) and "4" (store photo,
delegate to attractiveness analysis); in every other case, also when
current_feature is absent or None, the default branch runs the standard
face shape analysis: it stores the photo and, on a detected face with
landmarks, stores face shape and landmarks for the later try-on.
Replies internal to the delegated feature 4, 5 and 6 handlers are not
modelled. -/
def process_photo (env : PhotoEnv) (s : Option UserData) :
    UserData × PhotoRoute × List Msg :=
  let u := s.getD {}
  if s.isSome = true ∧ u.current_feature = some "3" then
    let u1 := { u with image_data := some env.newImage }
    if env.landmarksFound = true then
      (_reset_all_waiting_states u1, PhotoRoute.symmetryAnalysis,
       [Msg.processing, Msg.symmetryResult])
    else
      (u1, PhotoRoute.symmetryAnalysis, [Msg.processing, Msg.noFace])
  else if s.isSome = true ∧ u.current_feature = some "5" then
    ({ u with image_data := some env.newImage },
     PhotoRoute.backgroundRemoval, [])
  else if s.isSome = true ∧ u.current_feature = some "6" then
    ({ u with
        image_data := some env.newImage
        waiting_for_replace_prompt := true },
     PhotoRoute.elementReplace, [])
  else if s.isSome = true ∧ u.current_feature = some "2" then
    let u1 := { u with image_data := some env.newImage }
    match env.shape with
    | none => (u1, PhotoRoute.faceShapeAnalysis, [Msg.processing, Msg.noFace])
    | some sh =>
      ({ u1 with
          face_shape := some sh
          face_measurements := some env.measurements
          processed_image := some env.visImage
          current_feature := none },
       PhotoRoute.faceShapeAnalysis,
       [Msg.processing, Msg.analysisResult sh])
  else if s.isSome = true ∧ u.current_feature = some "4" then
    ({ u with image_data := some env.newImage },
     PhotoRoute.attractivenessAnalysis, [])
  else
    let u1 := { u with image_data := some env.newImage }
    match env.shape with
    | none =>
      (u1, PhotoRoute.defaultFaceAnalysis, [Msg.processing, Msg.noFace])
    | some sh =>
      let u2 :=
        if env.landmarksFound = true then
          { u1 with
              face_shape := some sh
              landmarks := some env.landmarksVal
              waiting_for_hairstyle_selection := false }
        else u1
      (u2, PhotoRoute.defaultFaceAnalysis,
       [Msg.processing, Msg.analysisResult sh])

/-- Claim C5 concrete vision environment: face found. -/
def envC5 : PhotoEnv :=
  { newImage := 1, shape := some "oval", visImage := 3, measurements := 2
    landmarksFound := true, landmarksVal := 4 }

/-- Claim C5 is false as stated: a photo from a chat with no active
feature is not answered with a no-active-feature prompt; the default
face shape analysis runs (the analysis result is sent) and the session is
mutated (the photo and the computed face shape are stored). -/
theorem photo_without_feature_runs_analysis :
    (process_photo envC5 (some {})).2.1 = PhotoRoute.defaultFaceAnalysis
    ∧ (process_photo envC5 (some {})).2.2
        = [Msg.processing, Msg.analysisResult "oval"]
    ∧ (process_photo envC5 (some {})).1.image_data = some 1
    ∧ (process_photo envC5 (some {})).1.face_shape = some "oval"
    ∧ (process_photo envC5 (some {})).1 ≠ ({} : UserData) := by
  decide

/-- Claim C5, amended: with no active feature (current_feature None, as
after a mid-flow /start reset, or a chat with no session at all) an
incoming photo is routed to the default face shape analysis branch, which
stores the photo in the session and runs the analysis; no
no-active-feature prompt exists. -/
theorem photo_without_feature_routing (env : PhotoEnv) (u : UserData)
    (hcf : u.current_feature = none) :
    (process_photo env (some u)).2.1 = PhotoRoute.defaultFaceAnalysis
    ∧ (process_photo env (some u)).1.image_data = some env.newImage
    ∧ (process_photo env none).2.1 = PhotoRoute.defaultFaceAnalysis
    ∧ (process_photo env (some (start_reset u))).2.1
        = PhotoRoute.defaultFaceAnalysis := by
  have hr : (start_reset u).current_feature = none := rfl
  unfold process_photo
  simp only [Option.getD, Option.isSome]
  refine ⟨?_, ?_, ?_, ?_⟩ <;>
    · cases hsh : env.shape <;> simp [hcf, hr, hsh] <;>
        cases hlf : env.landmarksFound <;> simp [hlf]

/-- Claim C5 witness: no-face environment, session that was mid
background-replace flow and then reset by /start; the subsequent photo
goes to the default analysis branch and the photo is stored. -/
theorem photo_without_feature_routing_witness :
    (process_photo
        { newImage := 7, shape := none, visImage := 0, measurements := 0
          landmarksFound := false, landmarksVal := 0 }
        (some { current_feature := none
                waiting_for_background_prompt := true })).2.1
      = PhotoRoute.defaultFaceAnalysis
    ∧ (process_photo
        { newImage := 7, shape := none, visImage := 0, measurements := 0
          landmarksFound := false, landmarksVal := 0 }
        (some { current_feature := none
                waiting_for_background_prompt := true })).1.image_data
      = some 7 := by
  have h := photo_without_feature_routing
    { newImage := 7, shape := none, visImage := 0, measurements := 0
      landmarksFound := false, landmarksVal := 0 }
    { current_feature := none, waiting_for_background_prompt := true }
    rfl
  exact ⟨h.1, h.2.1⟩

/-- FaceShapeBot.generate_hairstyle (bot.py lines 2790 to 3005): at entry
it clears waiting_for_hairstyle_selection and sets customization_state to
"selecting_style" (lines 2792 to 2794); if the session has no landmarks
it reanalyzes the stored photo and stores the obtained landmarks
(newLandmarks, possibly none); then it calls the generative collaborator
apply_hairstyle, whose return value is the result argument.  On None it
sends the error message and returns without charging; only on a non-None
result it calls use_credit for 2 credits and reports the remaining
balance.  use_credit is modelled from the spec: database.use_credit is
not under src/, and the spec ledger charge decrements the balance by the
cost. -/
def generate_hairstyle (newLandmarks : Option Nat) (result : Option Nat)
    (balance : Nat) (ud : UserData) : Nat × UserData × List Msg :=
  let u1 := { ud with
                waiting_for_hairstyle_selection := false
                customization_state := some "selecting_style" }
  let u2 := if u1.landmarks = none then { u1 with landmarks := newLandmarks }
            else u1
  match result with
  | none => (balance, u2, [Msg.hairstyleGenerating, Msg.genError])
  | some _ =>
    (balance - 2, u2,
     [Msg.hairstyleGenerating, Msg.hairstyleApplied (balance - 2)])

/-- Claim C7 counterexample state: mid-customization session right before
generation. -/
def udC7 : UserData :=
  { waiting_for_hairstyle_selection := true
    customization_state := some "selecting_texture"
    landmarks := some 9, face_shape := some "oval", image_data := some 1 }

/-- Claim C7 is false in its wait-state part: a failed generative call
(collaborator returns None) does leave the balance untouched, but the
wait state is not unchanged: generate_hairstyle clears
waiting_for_hairstyle_selection and moves customization_state to
"selecting_style" at entry, also when the call fails. -/
theorem failed_generation_changes_wait_state :
    (generate_hairstyle none none 10 udC7).1 = 10
    ∧ (generate_hairstyle none none 10
        udC7).2.1.waiting_for_hairstyle_selection = false
    ∧ udC7.waiting_for_hairstyle_selection = true
    ∧ (generate_hairstyle none none 10 udC7).2.1.customization_state
        = some "selecting_style"
    ∧ udC7.customization_state = some "selecting_texture" := by
  decide

/-- Claim C7, amended: a failed generative call never charges (the
balance is returned unchanged) and makes no failure-specific session
change: the session after a failed call equals the session after a
successful call, namely the entry state with
waiting_for_hairstyle_selection cleared and customization_state
"selecting_style" (landmarks filled in when absent), with every stored
result preserved, so the user can re-enter from the style selection
step; the 2-credit charge happens exactly on a non-None result. -/
theorem failed_generation_never_charges (nl : Option Nat) (r : Nat)
    (bal : Nat) (ud : UserData) :
    (generate_hairstyle nl none bal ud).1 = bal
    ∧ (generate_hairstyle nl none bal
        ud).2.1.waiting_for_hairstyle_selection = false
    ∧ (generate_hairstyle nl none bal ud).2.1.customization_state
        = some "selecting_style"
    ∧ (generate_hairstyle nl none bal ud).2.1.face_shape = ud.face_shape
    ∧ (generate_hairstyle nl none bal ud).2.1.image_data = ud.image_data
    ∧ (generate_hairstyle nl none bal ud).2.1
        = (generate_hairstyle nl (some r) bal ud).2.1
    ∧ (generate_hairstyle nl (some r) bal ud).1 = bal - 2 := by
  unfold generate_hairstyle
  by_cases h : ud.landmarks = none <;> simp [h]

/-- Payment metadata returned by a provider get_payment_data call. -/
structure PayData where
  package_id : Option String := none
  credits : Option Nat := none
  telegram_id : Option Nat := none
  deriving Repr, DecidableEq

/-- One Transaction record of the database, as seen through its payment
id: its status string and the credits it grants. -/
structure Tx where
  status : String
  credits : Nat
  deriving Repr, DecidableEq

/-- The database state touched by payment handling for one user and one
payment id: the user credit balance and the transaction stored under
that payment id, if any. -/
structure DbState where
  balance : Nat
  tx : Option Tx
  deriving Repr, DecidableEq

/-- The three payment backends of bot.py: CryptoPayment (legacy),
StripePayment and CryptoBotPayment. -/
inductive Provider where
  | cryptoLegacy
  | stripe
  | cryptoBot
  deriving Repr, DecidableEq

/-- Return values of the payment collaborators consumed by the handlers:
check_payment_status per backend (the Stripe one may return None, in
which case bot.py retrieves the checkout session directly and reads
whether its payment_status is "paid"), get_payment_data per backend, the
Crypto Bot invoice metadata (package id extracted from
payload or hidden_message, by get_invoice), and
CryptoBotPayment.get_credits_by_package_id. -/
structure PayEnv where
  legacyStatus : String → String
  stripeStatus : String → Option String
  stripeDirectPaid : String → Bool
  stripeData : String → Option PayData
  botStatus : String → String
  botData : String → Option PayData
  botInvoiceData : String → Option PayData
  creditsByPackage : Option String → Nat

/-- Provider selection of handle_successful_payment (bot.py lines 1122 to
1166): by the payment id string shape alone. -/
def providerOf (pid : String) : Provider :=
  if pyStartsWith pid "TEST_" || pyStartsWith pid "CP_" then
    Provider.cryptoLegacy
  else if pyStartsWith pid "cs_" || pyStartsWith pid "pi_" then
    Provider.stripe
  else
    Provider.cryptoBot

/-- The success_status variable of handle_successful_payment: "completed"
for the legacy and Stripe backends, "paid" for Crypto Bot. -/
def successStatusOf : Provider → String
  | Provider.cryptoLegacy => "completed"
  | Provider.stripe => "completed"
  | Provider.cryptoBot => "paid"

/-- The payment_status variable of handle_successful_payment: the status
reported by the selected backend, with the Stripe direct-retrieval
fallback of bot.py lines 1136 to 1144. -/
def reportedStatus (env : PayEnv) (pid : String) : String :=
  match providerOf pid with
  | Provider.cryptoLegacy => env.legacyStatus pid
  | Provider.stripe =>
    match env.stripeStatus pid with
    | some s => s
    | none => if env.stripeDirectPaid pid then "completed" else "pending"
  | Provider.cryptoBot => env.botStatus pid

/-- The payment_data variable of handle_successful_payment: None for the
legacy backend, get_payment_data of the selected backend otherwise. -/
def paymentDataOf (env : PayEnv) (pid : String) : Option PayData :=
  match providerOf pid with
  | Provider.cryptoLegacy => none
  | Provider.stripe => env.stripeData pid
  | Provider.cryptoBot => env.botData pid

/-- Modelled from the spec: database.complete_transaction (imported by
bot.py, not under src/).  Per the reconciliation algorithm of the spec, a
pending transaction transitions to completed and its credits are granted
to the user in the same step; on a transaction already terminal, or
absent, nothing happens. -/
def complete_transaction (st : DbState) : DbState :=
  match st.tx with
  | some t =>
    if t.status = "pending" then
      { balance := st.balance + t.credits
        tx := some { t with status := "completed" } }
    else st
  | none => st

/-- FaceShapeBot.handle_successful_payment (bot.py lines 1116 to 1371):
selects the backend by the payment id prefix, reads the reported status,
and only when it equals the selected success status touches the
transaction: an already completed transaction is only reported, a pending
one is completed (granting its credits), a missing one is reconstructed
from provider metadata (get_payment_data, else the Crypto Bot invoice for
non-legacy ids) and completed when the package id yields a positive
credit amount; in every other case a support or status message is sent
and the state is left alone.  Returns the new database state, the Python
return value and the replies. -/
def handle_successful_payment (env : PayEnv) (st : DbState)
    (pid : String) : DbState × Bool × List Msg :=
  let status := reportedStatus env pid
  let succ := successStatusOf (providerOf pid)
  if status = "error" then
    (st, false, [Msg.paymentError])
  else if status ≠ succ then
    if status = "expired" then (st, false, [Msg.paymentExpired])
    else if status = "canceled" then (st, false, [Msg.paymentCanceled])
    else (st, false, [Msg.paymentNotCompleted status succ])
  else
    match st.tx with
    | some t =>
      if t.status = "completed" then
        (st, true, [Msg.paymentAlreadyProcessed t.credits st.balance])
      else if t.status = "pending" then
        let st2 := complete_transaction st
        (st2, true, [Msg.paymentSuccess t.credits st2.balance])
      else (st, false, [Msg.contactSupport])
    | none =>
      let pdata :=
        match paymentDataOf env pid with
        | some d => some d
        | none =>
          if providerOf pid = Provider.cryptoLegacy then none
          else env.botInvoiceData pid
      match pdata with
      | none => (st, false, [Msg.contactSupport])
      | some d =>
        let credits := env.creditsByPackage d.package_id
        if 0 < credits then
          let st2 := complete_transaction
            { balance := st.balance
              tx := some { status := "pending", credits := credits } }
          (st2, true, [Msg.paymentSuccess credits st2.balance])
        else (st, false, [Msg.contactSupport])

/-- FaceShapeBot.handle_stripe_payment (bot.py lines 4985 to 5097), the
simplified PaymentLink handler: an existing completed transaction is only
reported; otherwise it never consults a payment status: it reads credits
from get_payment_data with default 5 (also 5 when no data can be
retrieved at all), marks the existing transaction completed or creates a
new already-completed one (when the user row exists), and adds the
credits to the balance. -/
def handle_stripe_payment (env : PayEnv) (st : DbState)
    (userExists : Bool) (sid : String) : DbState × Bool × List Msg :=
  match st.tx with
  | some t =>
    if t.status = "completed" then
      (st, true, [Msg.stripeAlreadyProcessed st.balance])
    else
      let credits :=
        match env.stripeData sid with
        | some d => d.credits.getD 5
        | none => 5
      let st2 : DbState :=
        { balance := st.balance + credits
          tx := some { t with status := "completed" } }
      (st2, true, [Msg.stripeProcessed credits st2.balance])
  | none =>
    let credits :=
      match env.stripeData sid with
      | some d => d.credits.getD 5
      | none => 5
    if userExists then
      let st2 : DbState :=
        { balance := st.balance + credits
          tx := some { status := "completed", credits := credits } }
      (st2, true, [Msg.stripeProcessed credits st2.balance])
    else (st, false, [])

/-- The Stripe success deep link branch of FaceShapeBot.start (bot.py
lines 439 to 512), for a session id that is not a PaymentLink id: it
checks the Stripe status once; on "completed" it grants the credits of
the payment data (default 0 on a matching telegram id, default 5 on a
mismatch or missing data) and completes the stored transaction; on
"pending" it only reports; on any other status, including a failed status
check, it grants the default package of 5 credits anyway and reports
success. -/
def start_success_return (env : PayEnv) (st : DbState) (chatId : Nat)
    (sid : String) : DbState × List Msg :=
  let status := env.stripeStatus sid
  if status = some "completed" then
    match env.stripeData sid with
    | some d =>
      if d.telegram_id = some chatId then
        let credits := d.credits.getD 0
        let st1 : DbState := { st with balance := st.balance + credits }
        let st2 := complete_transaction st1
        (st2, [Msg.paymentCompletedDeepLink credits st1.balance])
      else
        let credits := d.credits.getD 5
        ({ st with balance := st.balance + credits },
         [Msg.paymentCompletedDeepLink credits (st.balance + credits)])
    | none =>
      ({ st with balance := st.balance + 5 },
       [Msg.paymentCompletedDeepLink 5 (st.balance + 5)])
  else if status = some "pending" then
    (st, [Msg.paymentPendingDeepLink])
  else
    ({ st with balance := st.balance + 5 },
     [Msg.paymentCompletedDeepLink 5 (st.balance + 5)])

/-- Claim C1: with a transaction already completed under the payment id,
replaying the payment success handling any number of times reports
success and grants nothing: handle_successful_payment (when the provider
still reports the success status) answers with the already-processed
message and returns the database state unchanged, handle_stripe_payment
answers likewise, and any number of further replays of either handler
leaves the balance and the whole state identical. -/
theorem replay_completed_payment_grants_nothing (env : PayEnv)
    (st : DbState) (pid sid : String) (ue : Bool) (t : Tx)
    (htx : st.tx = some t) (hdone : t.status = "completed")
    (hstat : reportedStatus env pid = successStatusOf (providerOf pid)) :
    handle_successful_payment env st pid
      = (st, true, [Msg.paymentAlreadyProcessed t.credits st.balance])
    ∧ handle_stripe_payment env st ue sid
      = (st, true, [Msg.stripeAlreadyProcessed st.balance])
    ∧ (∀ n : Nat,
        (fun s => (handle_successful_payment env s pid).1)^[n] st = st)
    ∧ (∀ n : Nat,
        (fun s => (handle_stripe_payment env s ue sid).1)^[n] st = st) := by
  have hne : successStatusOf (providerOf pid) ≠ "error" := by
    cases providerOf pid <;> simp [successStatusOf]
  have h1 : handle_successful_payment env st pid
      = (st, true, [Msg.paymentAlreadyProcessed t.credits st.balance]) := by
    unfold handle_successful_payment
    rw [hstat, htx]
    simp [hne, hdone]
  have h2 : handle_stripe_payment env st ue sid
      = (st, true, [Msg.stripeAlreadyProcessed st.balance]) := by
    unfold handle_stripe_payment
    rw [htx]
    simp [hdone]
  refine ⟨h1, h2, ?_, ?_⟩
  · intro n
    exact Function.iterate_fixed (by rw [h1]) n
  · intro n
    exact Function.iterate_fixed (by rw [h2]) n

/-- Claim C1 witness environment: the Crypto Bot backend keeps reporting
paid for the invoice. -/
def envC1 : PayEnv :=
  { legacyStatus := fun _ => "completed"
    stripeStatus := fun _ => some "completed"
    stripeDirectPaid := fun _ => false
    stripeData := fun _ => none
    botStatus := fun _ => "paid"
    botData := fun _ => none
    botInvoiceData := fun _ => none
    creditsByPackage := fun _ => 0 }

/-- Claim C1 witness state: transaction completed, 10 credits already
granted, balance 7. -/
def stC1 : DbState :=
  { balance := 7, tx := some { status := "completed", credits := 10 } }

/-- Claim C1 witness: replaying a completed Crypto Bot payment and a
completed Stripe PaymentLink payment reports success and leaves the
balance at 7. -/
theorem replay_completed_payment_grants_nothing_witness :
    handle_successful_payment envC1 stC1 "inv1"
      = (stC1, true, [Msg.paymentAlreadyProcessed 10 7])
    ∧ handle_stripe_payment envC1 stC1 true "cs_9"
      = (stC1, true, [Msg.stripeAlreadyProcessed 7]) := by
  have h := replay_completed_payment_grants_nothing envC1 stC1 "inv1"
    "cs_9" true { status := "completed", credits := 10 } rfl rfl
    (by decide)
  exact ⟨h.1, h.2.1⟩

/-- Claim C2 environment: the Stripe backend reports the payment as
canceled, and no payment data is retrievable for the PaymentLink id. -/
def envC2 : PayEnv :=
  { legacyStatus := fun _ => "pending"
    stripeStatus := fun _ => some "canceled"
    stripeDirectPaid := fun _ => false
    stripeData := fun _ => none
    botStatus := fun _ => "pending"
    botData := fun _ => none
    botInvoiceData := fun _ => none
    creditsByPackage := fun _ => 0 }

/-- Claim C2 fails on the code: the /start success deep link branch
grants the default package of 5 credits and reports success although the
provider reports the payment canceled, and the PaymentLink handler grants
5 credits although no payment data can be retrieved at all; success is
inferred from the user returning via the success link, exactly what the
claim excludes. -/
theorem deep_link_grants_without_confirmation :
    start_success_return envC2 { balance := 0, tx := none } 42 "cs_123"
      = ({ balance := 5, tx := none },
         [Msg.paymentCompletedDeepLink 5 5])
    ∧ handle_stripe_payment envC2 { balance := 0, tx := none } true "pl_123"
      = ({ balance := 5
           tx := some { status := "completed", credits := 5 } },
         true, [Msg.stripeProcessed 5 5]) := by
  decide

/-- Claim C8: handle_successful_payment selects the backend and its
success vocabulary purely from the payment id prefix: TEST_ and CP_ give
the legacy crypto backend with success status "completed", cs_ and pi_
give Stripe with "completed", every other id gives Crypto Bot with
"paid"; and whenever the reported status differs from the selected
success status the handler grants nothing: it returns the database state
unchanged with result False. -/
theorem provider_selection_by_id_shape :
    (∀ pid : String,
      (pyStartsWith pid "TEST_" || pyStartsWith pid "CP_") = true →
        providerOf pid = Provider.cryptoLegacy
        ∧ successStatusOf (providerOf pid) = "completed")
    ∧ (∀ pid : String,
        (pyStartsWith pid "TEST_" || pyStartsWith pid "CP_") = false →
        (pyStartsWith pid "cs_" || pyStartsWith pid "pi_") = true →
          providerOf pid = Provider.stripe
          ∧ successStatusOf (providerOf pid) = "completed")
    ∧ (∀ pid : String,
        (pyStartsWith pid "TEST_" || pyStartsWith pid "CP_") = false →
        (pyStartsWith pid "cs_" || pyStartsWith pid "pi_") = false →
          providerOf pid = Provider.cryptoBot
          ∧ successStatusOf (providerOf pid) = "paid")
    ∧ (∀ (env : PayEnv) (st : DbState) (pid : String),
        reportedStatus env pid ≠ successStatusOf (providerOf pid) →
          (handle_successful_payment env st pid).1 = st
          ∧ (handle_successful_payment env st pid).2.1 = false) := by
  refine ⟨?_, ?_, ?_, ?_⟩
  · intro pid h
    constructor <;> simp [providerOf, successStatusOf, h]
  · intro pid h h2
    constructor <;> simp [providerOf, successStatusOf, h, h2]
  · intro pid h h2
    constructor <;> simp [providerOf, successStatusOf, h, h2]
  · intro env st pid h
    unfold handle_successful_payment
    by_cases he : reportedStatus env pid = "error"
    · simp [he]
    · rw [if_neg he, if_pos h]
      refine ⟨?_, ?_⟩ <;> split <;> try split
      all_goals rfl

/-- Claim C8 witness: concrete ids of each shape, and a canceled Crypto
Bot payment granting nothing. -/
theorem provider_selection_by_id_shape_witness :
    providerOf "TEST_7" = Provider.cryptoLegacy
    ∧ providerOf "cs_7" = Provider.stripe
    ∧ providerOf "inv7" = Provider.cryptoBot
    ∧ successStatusOf (providerOf "inv7") = "paid"
    ∧ (handle_successful_payment
        { envC2 with botStatus := fun _ => "canceled" }
        { balance := 3, tx := some { status := "pending", credits := 10 } }
        "inv7").1
      = { balance := 3, tx := some { status := "pending", credits := 10 } } := by
  refine ⟨?_, ?_, ?_, ?_, ?_⟩
  · exact (provider_selection_by_id_shape.1 "TEST_7" (by decide)).1
  · exact (provider_selection_by_id_shape.2.1 "cs_7" (by decide)
      (by decide)).1
  · exact (provider_selection_by_id_shape.2.2.1 "inv7" (by decide)
      (by decide)).1
  · exact (provider_selection_by_id_shape.2.2.1 "inv7" (by decide)
      (by decide)).2
  · exact (provider_selection_by_id_shape.2.2.2
      { envC2 with botStatus := fun _ => "canceled" }
      { balance := 3, tx := some { status := "pending", credits := 10 } }
      "inv7" (by decide)).1
